import Mathlib

/-!
# ParallelMemoryBenchmark — verification of the benchmark pipeline

A shallow embedding of the core of the `pmb` benchmark program
(`pmb.cpp` and its earlier revisions): the execution-policy dispatched
sort, the modular checksum, the deterministic generation phase, the
timed-phase runner `bench`, the orchestrating `test` pipeline and the
outermost `main` error boundary, plus the configuration extraction
`extract_operating_parameters`.

Machine integers: the workload elements are C++ `unsigned` (32 bits);
the checksum accumulates with wraparound, modelled as `% 2^32` on `Nat`.
`size_t` is 64 bits (64-bit builds, as the sources recommend).

Output: the program prints progress labels and diagnostics with
`fmt::print`; the embedding threads an explicit `Log` (list of printed
fragments) through every phase.  Exact text layout (hex formatting,
field widths, floating-point seconds) is presentation-only and is not
modelled beyond the semantic content of each fragment.

The pseudorandom engine (`std::mt19937`) is standard-library code,
external to the repository; the pipeline is parametrised by an
arbitrary engine: a state type `G`, a step `next : G → Nat × G`
producing one `unsigned` and the advanced state, and a seeding
constructor `init : Nat → G`.
-/

/-- `2^32`, the modulus of C++ `unsigned` arithmetic (32-bit `unsigned`,
as asserted by the sources' `static_assert` on the `mt19937` range). -/
def U32 : Nat := 2 ^ 32

/-- `numeric_limits<size_t>::max()` on a 64-bit build. -/
def SIZE_MAX : Nat := 2 ^ 64 - 1

/-- `enum class ParallelMode { seq, par, par_unseq };` -/
inductive ParallelMode : Type
  | seq
  | par
  | par_unseq
deriving DecidableEq, Repr

/-- The sorting primitive supplied by the execution environment:
`std::sort(policy, first, last)` on `unsigned` elements sorts the range
ascending by `<`.  All three execution policies are specified to produce
the same result; the embedding models the common result as a stable
ascending sort of the list. -/
def sortImpl (a : List Nat) : List Nat := a.mergeSort

/-- `sort(mode, first, last)` from `pmb.cpp` (and its revisions):
dispatches on `mode` to `std::sort` with the corresponding execution
policy.  The `NOT_REACHED()` after the exhaustive `switch` has no
counterpart: the match is exhaustive. -/
def sort (mode : ParallelMode) (a : List Nat) : List Nat :=
  match mode with
  | ParallelMode.seq => sortImpl a
  | ParallelMode.par => sortImpl a
  | ParallelMode.par_unseq => sortImpl a

/-- `sum` (part_003) / the `std::accumulate(first, last, 0u)` checksum:
left fold with `unsigned` addition starting from `0u`.  Wraparound is
modelled by reducing each partial sum `% 2^32`. -/
def sum (a : List Nat) : Nat := a.foldl (fun s x => (s + x) % U32) 0

/-- `std::is_sorted(first, last)`: no element compares less than its
predecessor, i.e. each adjacent pair is non-decreasing. -/
def is_sorted : List Nat → Bool
  | [] => true
  | [_] => true
  | x :: y :: rest => decide (x ≤ y) && is_sorted (y :: rest)

/-- `std::generate(first, last, gen)` over a vector of size `n` with a
stateful engine: invokes the engine once per element, front to back,
threading its state.  Returns the produced elements and the engine's
final state. -/
def generate {G : Type} (next : G → Nat × G) : Nat → G → List Nat × G
  | 0, g => ([], g)
  | n + 1, g =>
    let p := next g
    let rest := generate next n p.2
    (p.1 :: rest.1, rest.2)

/-- `n`-fold advancement of the engine state (the effect on the engine
of `n` invocations). -/
def advance {G : Type} (next : G → Nat × G) : Nat → G → G
  | 0, g => g
  | n + 1, g => advance next n (next g).2

/-! ## The timed-phase runner `bench` and its reporters -/

/-- Printed output: a list of text fragments, in print order. -/
abbrev Log := List String

/-- The " ({} ms)" fragment a reporter prints for an elapsed time. -/
def time_note (dt : Nat) : String := " (" ++ toString dt ++ " ms)"

/-- `report::time_only`: prints the elapsed time. -/
def report_time_only (dt : Nat) (log : Log) : Log := log ++ [time_note dt]

/-- `report::compact`: prints "Done." and then the elapsed time. -/
def report_compact (dt : Nat) (log : Log) : Log :=
  report_time_only dt (log ++ ["Done."])

/-- The overall-completion fragment printed by `report::full`
("Test completed in about ... s (... ms)"; the human formatting of
seconds is presentation-only and not modelled). -/
def full_note (dt : Nat) : String :=
  "Test completed in about " ++ toString dt ++ " ms"

/-- `report::full`: prints the whole-test elapsed time. -/
def report_full (dt : Nat) (log : Log) : Log := log ++ [full_note dt]

/-- Errors the pipeline can raise: `std::bad_alloc` from the allocating
resize.  An error carries the `Log` printed up to the throw point
(output already flushed before the failure). -/
inductive PmbError : Type
  | badAlloc
deriving DecidableEq, Repr

/-- An action as run by `bench`: reads/extends the printed `Log` and
either returns a value with the extended log or raises a failure
(carrying the log printed so far). -/
abbrev PhaseAction (ε ρ : Type) := Log → Except ε (ρ × Log)

/-- `call` (the value overload): a non-void action's result is passed
through unchanged. -/
def call {ε ρ : Type} (action : PhaseAction ε ρ) : PhaseAction ε ρ := action

/-- `call` (the `void` case): runs a void action and returns
`std::monostate`, modelled as `Unit`. -/
def callVoid {ε : Type} (action : Log → Except ε Log) : PhaseAction ε Unit :=
  fun log =>
    match action log with
    | Except.error e => Except.error e
    | Except.ok lg => Except.ok ((), lg)

/-- `bench(reporter, action)`: runs the action between two monotonic
clock reads and, on the non-failure path only, passes the elapsed
duration to the reporter, returning the action's result.  Wall-clock
durations are not derivable in the embedding, so the elapsed time `dt`
is an input.  If the action raises, the failure propagates and the
reporter is not invoked. -/
def bench {ε ρ : Type} (reporter : Nat → Log → Log)
    (action : PhaseAction ε ρ) (dt : Nat) (log : Log) : Except ε (ρ × Log) :=
  match action log with
  | Except.error e => Except.error e
  | Except.ok (r, lg) => Except.ok (r, reporter dt lg)

/-- `bench(label, reporter, action)`: prints the label (plus "... ")
and delegates to `bench`. -/
def benchl {ε ρ : Type} (label : String) (reporter : Nat → Log → Log)
    (action : PhaseAction ε ρ) (dt : Nat) (log : Log) : Except ε (ρ × Log) :=
  bench reporter action dt (log ++ [label ++ "... "])

/-! ## Run configuration -/

/-- `struct Parameters`: the resolved run configuration.
`inplace_reps` is a C++ `int`, modelled as `Int`. -/
structure Parameters : Type where
  length : Nat
  seed : Nat
  seed_origin : String
  mode : ParallelMode
  inplace_reps : Int
  show_start_time : Bool
deriving DecidableEq, Repr

/-! ## The orchestrating `test` pipeline -/

/-- The "same."/"DIFFERENT!" fragment of the Rehashing phase, comparing
the pre-sort checksum `s1` with the post-sort checksum `s2`. -/
def rehash_note (s1 s2 : Nat) : String :=
  if s1 = s2 then "same." else "DIFFERENT!"

/-- The "sorted."/"NOT SORTED!" fragment of the Checking phase. -/
def check_note (ok : Bool) : String :=
  if ok then "sorted." else "NOT SORTED!"

/-- The final values of `test`'s locals.  The source's `test` returns
`void`; the embedding returns them so the run's observables can be
stated (the workload `a`, the two checksums, the `is_sorted` result,
and the engine state after generation). -/
structure TestState (G : Type) : Type where
  a : List Nat
  s1 : Nat
  s2 : Nat
  sorted : Bool
  engine : G

/-- The sort loop `for (auto i = params.inplace_reps; i > 0; --i)`:
each iteration is a benched "Sorting" phase re-sorting the current
array in place.  The fuel `n` is the number of iterations the loop
performs (`inplace_reps.toNat`). -/
def sortPhases (mode : ParallelMode) (dt : Nat) :
    Nat → List Nat → Log → Except (PmbError × Log) (List Nat × Log)
  | 0, a, log => Except.ok (a, log)
  | n + 1, a, log => do
    let (a1, lg) ← benchl "Sorting" report_compact
      (fun lg0 => Except.ok (sort mode a, lg0)) dt log
    sortPhases mode dt n a1 lg

/-- `test(params, gen)` (the benched revisions): the phase pipeline
allocate → generate → hash → sort (×reps) → rehash → check.  The
environment's allocation behaviour is an input: `allocOk = false`
makes the resize throw `std::bad_alloc`.  The Hashing/Rehashing hex
value prints are modelled as decimal `toString` fragments
(presentation-only difference); the Rehashing and Checking actions are
`void` in the source, and here additionally return the values of their
locals `s2` and `ok` for observability. -/
def test {G : Type} (next : G → Nat × G) (allocOk : Bool)
    (params : Parameters) (gen : G) (dt : Nat) (log : Log) :
    Except (PmbError × Log) (TestState G × Log) := do
  let (a0, log) ← benchl "Allocating/zeroing" report_compact
    (fun lg => if allocOk
      then Except.ok ((List.replicate params.length 0 : List Nat), lg)
      else Except.error (PmbError.badAlloc, lg)) dt log
  let (ag, log) ← benchl "Generating" report_compact
    (fun lg => Except.ok (generate next a0.length gen, lg)) dt log
  let (s1, log) ← benchl "Hashing" report_time_only
    (fun lg => let s := sum ag.1
               Except.ok (s, lg ++ [toString s ++ "."])) dt log
  let (a2, log) ← sortPhases params.mode dt params.inplace_reps.toNat ag.1 log
  let (s2, log) ← benchl "Rehashing" report_time_only
    (fun lg => let s2 := sum a2
               Except.ok (s2, lg ++ [toString s2 ++ ", ", rehash_note s1 s2]))
    dt log
  let (okf, log) ← benchl "Checking" report_time_only
    (fun lg => let ok := is_sorted a2
               Except.ok (ok, lg ++ [check_note ok])) dt log
  Except.ok ({ a := a2, s1 := s1, s2 := s2, sorted := okf, engine := ag.2 },
             log)

/-- The terminal result of a run: normal completion, or the `Failed`
state reached from the single `catch (const std::bad_alloc&)` in
`main` (diagnostic via `die`, process exits with failure). -/
inductive Outcome : Type
  | completed (log : Log)
  | failed (diag : String) (log : Log)

/-- `main`'s benchmark portion: constructs the engine from the seed,
runs `bench(report::full, test)` and catches `std::bad_alloc` at this
outermost boundary only, printing the line-ending newline and dying
with "not enough memory".  (Printing the parameter summary is
presentation-only and not modelled.) -/
def mainRun {G : Type} (next : G → Nat × G) (init : Nat → G)
    (allocOk : Bool) (params : Parameters) (dt : Nat) : Outcome :=
  let gen := init params.seed
  match bench report_full (test next allocOk params gen dt) dt [] with
  | Except.error (PmbError.badAlloc, lg) =>
      Outcome.failed "not enough memory" (lg ++ ["\n"])
  | Except.ok (_, lg) => Outcome.completed lg

/-! ## Configuration extraction (`extract_operating_parameters`) -/

/-- The parsed `boost::program_options::variables_map`, restricted to
what `extract_operating_parameters` reads: the occurrence count of each
option and the converted values of the two valued options (meaningful
when the corresponding count is positive). -/
structure VariablesMap : Type where
  count_length : Nat
  length_value : Nat
  count_seed : Nat
  seed_value : Nat
  count_twice : Nat
  count_time : Nat
  count_seq : Nat
  count_par : Nat
  count_par_unseq : Nat
deriving DecidableEq, Repr

/-- `die(message)`: prints the diagnostic and exits with failure;
modelled as an `Except.error` carrying the message. -/
abbrev ConfigResult (ρ : Type) := Except String ρ

/-- `extract_length`: requires `--length`; rejects lengths at or above
`numeric_limits<size_t>::max() / sizeof(unsigned)` (`sizeof(unsigned)`
is 4). -/
def extract_length (vm : VariablesMap) : ConfigResult Nat :=
  if vm.count_length = 0 then Except.error "no length specified"
  else if SIZE_MAX / 4 ≤ vm.length_value then
    Except.error "length is representable but too big to meaningfully try"
  else Except.ok vm.length_value

/-- `obtain_seed_info`: the user's seed when `--seed` was given,
otherwise one drawn from `std::random_device` — the entropy value `rd`
is an input of the embedding. -/
def obtain_seed_info (vm : VariablesMap) (rd : Nat) : Nat × String :=
  if vm.count_seed ≠ 0 then (vm.seed_value, "provided by the user")
  else (rd, "generated by the system")

/-- `extract_dynamic_execution_policy`: at most one policy flag is
accepted; none means `par`.  The `NOT_REACHED()` branch (count sum 1
but no flag set) is dead and modelled arbitrarily as `par`. -/
def extract_dynamic_execution_policy (vm : VariablesMap) :
    ConfigResult ParallelMode :=
  match vm.count_seq + vm.count_par + vm.count_par_unseq with
  | 0 => Except.ok ParallelMode.par
  | 1 =>
    if vm.count_seq ≠ 0 then Except.ok ParallelMode.seq
    else if vm.count_par ≠ 0 then Except.ok ParallelMode.par
    else if vm.count_par_unseq ≠ 0 then Except.ok ParallelMode.par_unseq
    else Except.ok ParallelMode.par
  | _ + 2 =>
    Except.error "at most one of (--seq, --par, --par-unseq) is accepted"

/-- `extract_operating_parameters(vm)`: assembles the `Parameters`
record; `inplace_reps` is 2 with `--twice` and 1 without. -/
def extract_operating_parameters (vm : VariablesMap) (rd : Nat) :
    ConfigResult Parameters := do
  let length ← extract_length vm
  let seed_info := obtain_seed_info vm rd
  let mode ← extract_dynamic_execution_policy vm
  Except.ok
    { length := length
      seed := seed_info.1
      seed_origin := seed_info.2
      mode := mode
      inplace_reps := if vm.count_twice ≠ 0 then 2 else 1
      show_start_time := vm.count_time ≠ 0 }

/-! ## Helper definitions for stating the pipeline's behaviour -/

/-- The effect on the array of `n` trips through the sort loop. -/
def sortN (mode : ParallelMode) : Nat → List Nat → List Nat
  | 0, a => a
  | n + 1, a => sortN mode n (sort mode a)

/-- The output fragments of `n` trips through the sort loop. -/
def sortTrace (dt : Nat) : Nat → Log
  | 0 => []
  | n + 1 => ["Sorting... ", "Done.", time_note dt] ++ sortTrace dt n

/-- A concrete stand-in engine (a linear congruential step on a `Nat`
state), used to instantiate the engine-generic theorems on closed
inputs. -/
def lcgNext (g : Nat) : Nat × Nat :=
  (g % U32, (g * 1664525 + 1013904223) % U32)

/-- Seeding constructor for the stand-in engine. -/
def lcgInit (seed : Nat) : Nat := seed % U32

/-! # Theorems -/

theorem advance_succ_shift {G : Type} (next : G → Nat × G) (n : Nat) (g : G) :
    advance next (n + 1) g = advance next n (next g).2 := rfl

/-- Characterisation of `generate`: element `i` is the output of the
engine after `i` prior invocations, and the final state is the `n`-fold
advanced state. -/
theorem generate_eq {G : Type} (next : G → Nat × G) (n : Nat) (g : G) :
    generate next n g =
      ((List.range n).map (fun i => (next (advance next i g)).1),
        advance next n g) := by
  induction n generalizing g with
  | zero => rfl
  | succ n ih =>
    simp only [generate, ih ((next g).2), List.range_succ_eq_map,
      List.map_cons, List.map_map, Prod.mk.injEq]
    refine ⟨?_, rfl⟩
    refine congrArg (fun l => (next g).1 :: l) ?_
    exact (List.map_congr_left (fun i _ => rfl)).symm

/-- The checksum is the plain list sum reduced `% 2^32`. -/
theorem sum_eq_list_sum_mod (a : List Nat) : sum a = a.sum % U32 := by
  have general : ∀ (l : List Nat) (s : Nat),
      l.foldl (fun acc x => (acc + x) % U32) (s % U32) = (s + l.sum) % U32 := by
    intro l
    induction l with
    | nil => intro s; simp
    | cons x xs ih =>
      intro s
      have step : (s % U32 + x) % U32 = (s + x) % U32 := by
        rw [Nat.mod_add_mod]
      calc (x :: xs).foldl (fun acc y => (acc + y) % U32) (s % U32)
          = xs.foldl (fun acc y => (acc + y) % U32) ((s + x) % U32) := by
            simp [List.foldl_cons, step]
        _ = (s + x + xs.sum) % U32 := ih (s + x)
        _ = (s + (x :: xs).sum) % U32 := by
            simp [List.sum_cons, Nat.add_assoc]
  have h := general a 0
  simpa [sum] using h

/-- The sort loop never fails: it returns the `n`-fold sorted array and
appends the `n` phases' output. -/
theorem sortPhases_eq (mode : ParallelMode) (dt : Nat) (n : Nat)
    (a : List Nat) (log : Log) :
    sortPhases mode dt n a log =
      Except.ok (sortN mode n a, log ++ sortTrace dt n) := by
  induction n generalizing a log with
  | zero => simp [sortPhases, sortN, sortTrace]
  | succ n ih =>
    simp only [sortPhases, benchl, bench, sortN, sortTrace, bind, Except.bind]
    rw [ih]
    simp [report_compact, report_time_only, List.append_assoc]

/-- Full characterisation of `test` on the success path (allocation
succeeds): the final state and the exact printed log. -/
theorem test_true_eq {G : Type} (next : G → Nat × G) (params : Parameters)
    (gen : G) (dt : Nat) (log : Log) :
    test next true params gen dt log =
      (let a1 := (generate next params.length gen).1
       let gv := (generate next params.length gen).2
       let s1 := sum a1
       let a2 := sortN params.mode params.inplace_reps.toNat a1
       let s2 := sum a2
       let okv := is_sorted a2
       Except.ok
        ({ a := a2, s1 := s1, s2 := s2, sorted := okv, engine := gv },
         log ++ ["Allocating/zeroing... ", "Done.", time_note dt,
                 "Generating... ", "Done.", time_note dt,
                 "Hashing... ", toString s1 ++ ".", time_note dt]
             ++ sortTrace dt params.inplace_reps.toNat
             ++ ["Rehashing... ", toString s2 ++ ", ", rehash_note s1 s2,
                 time_note dt,
                 "Checking... ", check_note okv, time_note dt])) := by
  simp only [test, benchl, bench, report_compact, report_time_only,
    List.length_replicate, sortPhases_eq, bind, Except.bind]
  simp [List.append_assoc]

/-- `test` with a failing allocation: the resize throws after the
"Allocating/zeroing... " label is printed, and nothing else runs. -/
theorem test_false_eq {G : Type} (next : G → Nat × G) (params : Parameters)
    (gen : G) (dt : Nat) (log : Log) :
    test next false params gen dt log =
      Except.error (PmbError.badAlloc, log ++ ["Allocating/zeroing... "]) := by
  simp [test, benchl, bench, bind, Except.bind]

/-- Each dispatch target of `sort` produces the same list. -/
theorem sort_eq_sortImpl (mode : ParallelMode) (a : List Nat) :
    sort mode a = sortImpl a := by
  cases mode <;> rfl

/-- The dispatched sort returns an ascending permutation of its input. -/
theorem sortImpl_sorted_perm (a : List Nat) :
    List.Sorted (· ≤ ·) (sortImpl a) ∧ (sortImpl a).Perm a :=
  ⟨List.sorted_mergeSort' a, List.mergeSort_perm a _⟩

/-- **C1.** For every input array, dispatching the sort with any of the
three modes yields an ascending-sorted permutation of the input, and
any two modes yield the same final array: the mode never changes the
observable result. -/
theorem sort_ascending_perm_mode_independent
    (mode mode2 : ParallelMode) (a : List Nat) :
    List.Sorted (· ≤ ·) (sort mode a) ∧ (sort mode a).Perm a ∧
      sort mode a = sort mode2 a := by
  rw [sort_eq_sortImpl, sort_eq_sortImpl]
  exact ⟨(sortImpl_sorted_perm a).1, (sortImpl_sorted_perm a).2, rfl⟩

/-- **C2.** The checksum is permutation-invariant: any permutation of a
sequence has the same checksum; in particular the sort step (which
produces a permutation for every mode) preserves the checksum, so the
pre-sort checksum `s1` equals the post-sort checksum `s2`. -/
theorem sum_permutation_invariant (a b : List Nat) (h : a.Perm b) :
    sum a = sum b ∧ ∀ mode : ParallelMode, sum (sort mode a) = sum a := by
  constructor
  · rw [sum_eq_list_sum_mod, sum_eq_list_sum_mod, h.sum_eq]
  · intro mode
    rw [sum_eq_list_sum_mod, sum_eq_list_sum_mod, sort_eq_sortImpl,
      ((sortImpl_sorted_perm a).2).sum_eq]

/-- Witness for `sum_permutation_invariant` on a closed permutation. -/
theorem sum_permutation_invariant_witness :
    sum [3, 1, 2] = sum [2, 3, 1] ∧
      ∀ mode : ParallelMode, sum (sort mode [3, 1, 2]) = sum [3, 1, 2] :=
  sum_permutation_invariant [3, 1, 2] [2, 3, 1] (by decide)

/-- **C3.** For every reporter and action: if the action raises a
failure, `bench` propagates the failure and the reporter is never
invoked — the result does not depend on the reporter at all and no
elapsed time is reported; on the non-failure path the reporter is
invoked exactly once, after the action. -/
theorem bench_reports_only_on_success {ε ρ : Type}
    (reporter : Nat → Log → Log) (action : PhaseAction ε ρ)
    (dt : Nat) (log : Log) :
    (∀ e : ε, action log = Except.error e →
      bench reporter action dt log = Except.error e ∧
      ∀ reporter2 : Nat → Log → Log,
        bench reporter action dt log = bench reporter2 action dt log) ∧
    (∀ (r : ρ) (lg : Log), action log = Except.ok (r, lg) →
      bench reporter action dt log = Except.ok (r, reporter dt lg)) := by
  constructor
  · intro e he
    constructor
    · simp [bench, he]
    · intro reporter2
      simp [bench, he]
  · intro r lg hr
    simp [bench, hr]

/-- Witness for `bench_reports_only_on_success`: a concrete failing
action (failure propagated, no report) and a concrete succeeding
action (reported exactly once). -/
theorem bench_reports_only_on_success_witness :
    bench (fun dt lg => lg ++ [time_note dt])
        (fun _ => (Except.error "boom" : Except String (Nat × Log))) 7 []
      = Except.error "boom" ∧
    bench (fun dt lg => lg ++ [time_note dt])
        (fun lg => (Except.ok (42, lg) : Except String (Nat × Log))) 7 []
      = Except.ok (42, [time_note 7]) := by
  constructor
  · exact ((bench_reports_only_on_success
      (fun dt lg => lg ++ [time_note dt])
      (fun _ => (Except.error "boom" : Except String (Nat × Log))) 7 []).1
      "boom" rfl).1
  · exact (bench_reports_only_on_success
      (fun dt lg => lg ++ [time_note dt])
      (fun lg => (Except.ok (42, lg) : Except String (Nat × Log))) 7 []).2
      42 [] rfl

/-- **C4.** The timed-phase runner returns the action's own result to
its caller, uniformly for value-returning actions (passed through
`call`) and `void` actions (passed through the `monostate`-returning
`call`, modelled by `callVoid`). -/
theorem bench_returns_action_result {ε ρ : Type}
    (reporter : Nat → Log → Log) (dt : Nat) (log : Log) :
    (∀ (action : PhaseAction ε ρ) (r : ρ) (lg : Log),
      action log = Except.ok (r, lg) →
        bench reporter (call action) dt log =
          Except.ok (r, reporter dt lg)) ∧
    (∀ (action : Log → Except ε Log) (lg : Log),
      action log = Except.ok lg →
        bench reporter (callVoid action) dt log =
          Except.ok ((), reporter dt lg)) := by
  constructor
  · intro action r lg hr
    simp [bench, call, hr]
  · intro action lg hr
    simp [bench, callVoid, hr]

/-- Witness for `bench_returns_action_result`: a concrete checksum-like
value action and a concrete generate-like void action. -/
theorem bench_returns_action_result_witness :
    bench (fun dt lg => lg ++ [time_note dt])
        (call (fun lg => (Except.ok (99, lg ++ ["99."]) :
          Except String (Nat × Log)))) 3 []
      = Except.ok (99, ["99.", time_note 3]) ∧
    bench (fun dt lg => lg ++ [time_note dt])
        (callVoid (fun lg => (Except.ok (lg ++ ["Done."]) :
          Except String Log))) 3 []
      = Except.ok ((), ["Done.", time_note 3]) := by
  constructor
  · exact (@bench_returns_action_result String Nat
      (fun dt lg => lg ++ [time_note dt]) 3 []).1
      (fun lg => Except.ok (99, lg ++ ["99."])) 99 ["99."] rfl
  · exact (@bench_returns_action_result String Nat
      (fun dt lg => lg ++ [time_note dt]) 3 []).2
      (fun lg => Except.ok (lg ++ ["Done."])) ["Done."] rfl

/-- **C5.** The generation phase invokes the engine exactly once per
element, in index-ascending order (element `i` is the output of the
engine after exactly `i` prior invocations), fills exactly `n`
elements, and its only effect on the engine is advancing it by exactly
`n` steps. -/
theorem generation_once_per_element_in_order {G : Type}
    (next : G → Nat × G) (n : Nat) (g : G) :
    (generate next n g).1 =
      (List.range n).map (fun i => (next (advance next i g)).1) ∧
    (generate next n g).1.length = n ∧
    (generate next n g).2 = advance next n g := by
  rw [generate_eq]
  exact ⟨rfl, by simp, rfl⟩

/-- **C6.** Generation is deterministic in the seed: two runs seeding
the engine identically and generating the same number of elements
produce identical sequences. -/
theorem generation_deterministic_in_seed {G : Type}
    (next : G → Nat × G) (init : Nat → G)
    (seed1 seed2 len1 len2 : Nat) (hs : seed1 = seed2) (hl : len1 = len2) :
    (generate next len1 (init seed1)).1 =
      (generate next len2 (init seed2)).1 := by
  subst hs
  subst hl
  rfl

/-- Witness for `generation_deterministic_in_seed` on the concrete
stand-in engine, seed 42, length 5. -/
theorem generation_deterministic_in_seed_witness :
    (generate lcgNext 5 (lcgInit 42)).1 = (generate lcgNext 5 (lcgInit 42)).1 :=
  generation_deterministic_in_seed lcgNext lcgInit 42 42 5 5 rfl rfl

/-- **C7.** An allocation failure is the only error the pipeline
handles: with a failing allocation, `test` propagates the failure
untouched past every phase (no per-phase handling, no phase after the
"Allocating/zeroing" label runs, no retry), `main`'s single outermost
catch emits the "not enough memory" diagnostic after terminating the
partially-printed label line, and the run ends in the failure outcome;
with a succeeding allocation no error arises at all. -/
theorem alloc_failure_outermost_catch {G : Type} (next : G → Nat × G)
    (init : Nat → G) (params : Parameters) (dt : Nat) :
    test next false params (init params.seed) dt [] =
      Except.error (PmbError.badAlloc, ["Allocating/zeroing... "]) ∧
    mainRun next init false params dt =
      Outcome.failed "not enough memory" ["Allocating/zeroing... ", "\n"] ∧
    (∀ gen : G, ∃ (st : TestState G) (lg : Log),
      test next true params gen dt [] = Except.ok (st, lg)) := by
  refine ⟨?_, ?_, ?_⟩
  · simpa using test_false_eq next params (init params.seed) dt []
  · simp [mainRun, bench, test_false_eq]
  · intro gen
    exact ⟨_, _, by rw [test_true_eq]⟩

/-- **C8.** A checksum mismatch or a failed ascending-order check is
never an error: the Rehashing and Checking diagnostics are total
observations (one of two fragments, raising nothing), the run reaching
those phases still completes normally, both diagnostics appear in the
output, and the overall elapsed time is reported at the end. -/
theorem diagnostics_do_not_abort_run {G : Type} (next : G → Nat × G)
    (init : Nat → G) (params : Parameters) (dt : Nat) :
    (∀ s1 s2 : Nat,
      rehash_note s1 s2 = "same." ∨ rehash_note s1 s2 = "DIFFERENT!") ∧
    (∀ ok : Bool,
      check_note ok = "sorted." ∨ check_note ok = "NOT SORTED!") ∧
    (∃ (st : TestState G) (lg : Log),
      test next true params (init params.seed) dt [] = Except.ok (st, lg) ∧
      rehash_note st.s1 st.s2 ∈ lg ∧
      check_note st.sorted ∈ lg ∧
      mainRun next init true params dt =
        Outcome.completed (lg ++ [full_note dt])) := by
  refine ⟨?_, ?_, ?_⟩
  · intro s1 s2
    by_cases h : s1 = s2 <;> simp [rehash_note, h]
  · intro ok
    cases ok <;> simp [check_note]
  · refine ⟨_, _, test_true_eq next params (init params.seed) dt [], ?_, ?_, ?_⟩
    · simp
    · simp
    · simp [mainRun, bench, test_true_eq, report_full]

/-- Re-sorting an empty array any number of times leaves it empty. -/
theorem sortN_nil (mode : ParallelMode) (n : Nat) :
    sortN mode n [] = [] := by
  induction n with
  | zero => rfl
  | succ n ih =>
    have hstep : sort mode ([] : List Nat) = [] := by
      rw [sort_eq_sortImpl]
      simp [sortImpl]
    simp [sortN, hstep, ih]

/-- **C9.** With `length == 0` the run produces an empty workload, both
checksum phases compute 0, the is-sorted verification reports true, the
engine is never invoked (its state is returned unchanged), and the run
completes without failure. -/
theorem zero_length_run_trivial {G : Type} (next : G → Nat × G)
    (init : Nat → G) (params : Parameters) (dt : Nat)
    (h : params.length = 0) :
    (∃ lg : Log, test next true params (init params.seed) dt [] =
      Except.ok ({ a := [], s1 := 0, s2 := 0, sorted := true,
                   engine := init params.seed }, lg)) ∧
    (∃ lg2 : Log, mainRun next init true params dt =
      Outcome.completed lg2) := by
  have hgen : generate next params.length (init params.seed) =
      ([], init params.seed) := by
    rw [h]
    rfl
  constructor
  · have ht := test_true_eq next params (init params.seed) dt []
    simp only [hgen, sortN_nil] at ht
    exact ⟨_, ht⟩
  · obtain ⟨st, lg, hok⟩ : ∃ st lg,
        test next true params (init params.seed) dt [] =
          Except.ok (st, lg) :=
      ⟨_, _, test_true_eq next params (init params.seed) dt []⟩
    exact ⟨report_full dt lg, by simp [mainRun, bench, hok]⟩

/-- Witness for `zero_length_run_trivial` on concrete zero-length
parameters and the concrete stand-in engine. -/
theorem zero_length_run_trivial_witness :
    (∃ lg : Log, test lcgNext true
        (Parameters.mk 0 42 "provided by the user" ParallelMode.par 1 false)
        (lcgInit 42) 5 [] =
      Except.ok ({ a := [], s1 := 0, s2 := 0, sorted := true,
                   engine := lcgInit 42 }, lg)) ∧
    (∃ lg2 : Log, mainRun lcgNext lcgInit true
        (Parameters.mk 0 42 "provided by the user" ParallelMode.par 1 false)
        5 = Outcome.completed lg2) :=
  zero_length_run_trivial lcgNext lcgInit
    (Parameters.mk 0 42 "provided by the user" ParallelMode.par 1 false)
    5 rfl

/-- **C10.** For every accepted command line, the repetition count is
exactly 2 when `--twice` is present and exactly 1 otherwise; no other
repetition count can ever be produced. -/
theorem inplace_reps_one_or_two (vm : VariablesMap) (rd : Nat)
    (params : Parameters)
    (h : extract_operating_parameters vm rd = Except.ok params) :
    params.inplace_reps = (if vm.count_twice ≠ 0 then 2 else 1) ∧
    (params.inplace_reps = 1 ∨ params.inplace_reps = 2) := by
  unfold extract_operating_parameters at h
  cases hL : extract_length vm with
  | error e =>
    rw [hL] at h
    simp [bind, Except.bind] at h
  | ok len =>
    rw [hL] at h
    cases hM : extract_dynamic_execution_policy vm with
    | error e =>
      rw [hM] at h
      simp [bind, Except.bind] at h
    | ok m =>
      rw [hM] at h
      simp only [bind, Except.bind, Except.ok.injEq] at h
      subst h
      by_cases ht : vm.count_twice ≠ 0 <;> simp [ht]

/-- Witness for `inplace_reps_one_or_two`: a concrete accepted command
line with `--twice` present (`--length 10 --seed 42 --twice`). -/
theorem inplace_reps_one_or_two_witness :
    (Parameters.mk 10 42 "provided by the user" ParallelMode.par 2
        false).inplace_reps = (if (1 : Nat) ≠ 0 then 2 else 1) ∧
    ((Parameters.mk 10 42 "provided by the user" ParallelMode.par 2
        false).inplace_reps = 1 ∨
     (Parameters.mk 10 42 "provided by the user" ParallelMode.par 2
        false).inplace_reps = 2) :=
  inplace_reps_one_or_two
    (VariablesMap.mk 1 10 1 42 1 0 0 0 0) 0
    (Parameters.mk 10 42 "provided by the user" ParallelMode.par 2
      false)
    rfl
